import Mathlib

/-!
Shallow embedding of the audio-capture core of the Vision_Voice repository
(file src/src/utils/audio_recorder.py, class AudioRecorder), together with
proofs of the behavioural properties stated in its specification.

Conventions: sample values and volumes are rationals (Python ints/floats in
exact arithmetic), the calibration statistics are reals because numpy std takes
a square root, wall-clock times are rationals, and the thread-visible effects
of lifecycle operations (device opened, closed, errors printed) are recorded
explicitly in small state records.
-/

namespace VisionVoice

/-! ## Speech detector (audio_recorder.py lines 40-42 and 166-177) -/

/-- Volume of a filtered block as computed on line 169:
np.max(np.abs(filtered_data)).  For an empty block numpy would error; the
fold returns 0, which never occurs in the loop (blocks have chunk_size
samples). -/
def blockVolume (samples : List ℚ) : ℚ :=
  (samples.map (fun s => |s|)).foldr max 0

/-- One step of the speech-detection logic, lines 172-177: if the volume is
strictly above the threshold the consecutive-frame counter is incremented and
speech is reported exactly when the incremented counter equals
speech_frames_threshold (line 174 compares with ==); otherwise the counter is
reset to 0 and nothing is reported.  Returns (new counter, reported). -/
def detectorStep (threshold : ℚ) (sft : ℕ) (c : ℕ) (volume : ℚ) : ℕ × Bool :=
  if threshold < volume then
    (c + 1, decide (c + 1 = sft))
  else
    (0, false)

/-- The per-block observation of lines 167-177: the detector sees the volume of
the filtered block. -/
def observeBlock (threshold : ℚ) (sft : ℕ) (c : ℕ) (filtered_block : List ℚ) :
    ℕ × Bool :=
  detectorStep threshold sft c (blockVolume filtered_block)

/-- Run the detector over a sequence of block volumes from counter c, returning
the final counter and the per-block report flags in order. -/
def detectorRun (threshold : ℚ) (sft : ℕ) (c : ℕ) : List ℚ → ℕ × List Bool
  | [] => (c, [])
  | v :: vs =>
    let s := detectorStep threshold sft c v
    let r := detectorRun threshold sft s.1 vs
    (r.1, s.2 :: r.2)

/-! ## Segment buffer and emitter (audio_recorder.py lines 139-157, 188-203) -/

/-- A finalized segment: the wav container written by _save_recording holds the
concatenation of the buffered frames (line 198 joins the frames before
writeframes), so we record the sample sequence the container holds. -/
structure Segment where
  samples : List ℤ

/-- Effect of _save_recording (lines 188-203) on the success path: the frames
are joined in order into one container, which is then enqueued. -/
def save_recording (frames : List (List ℤ)) : Segment :=
  ⟨frames.flatten⟩

/-- The loop-local and instance state touched by the interval check of
_listen_and_record: the per-interval frame buffer (line 139), the timestamp of
the last flush (line 137/156), the detection threshold and noise floor set by
calibration, the consecutive-speech counter, and the FIFO output queue (a
Queue put appends at the end). -/
structure LoopState where
  temp_frames : List (List ℤ)
  last_recording_time : ℚ
  threshold : ℚ
  noise_floor : ℚ
  consecutive_speech_frames : ℕ
  audio_queue : List Segment

/-- The interval-boundary check of _listen_and_record, lines 147-157: when
current_time - last_recording_time >= recording_interval, the buffer is saved
and enqueued only if it holds at least one frame (line 151), then the buffer is
cleared and the interval timer restarts from current_time (lines 155-156), not
from the originally scheduled boundary.  Outside the boundary nothing
changes. -/
def interval_check (recording_interval : ℚ) (s : LoopState) (current_time : ℚ) :
    LoopState :=
  if recording_interval ≤ current_time - s.last_recording_time then
    { s with
      audio_queue :=
        if 0 < s.temp_frames.length then
          s.audio_queue ++ [save_recording s.temp_frames]
        else
          s.audio_queue,
      temp_frames := [],
      last_recording_time := current_time }
  else
    s

/-! ## Noise calibration (audio_recorder.py lines 75-107) -/

/-- Arithmetic mean as computed by np.mean; the empty case gives 0/0 = 0 in
Lean, and is never reached because calibrate_noise branches on emptiness
first. -/
noncomputable def np_mean (xs : List ℝ) : ℝ :=
  xs.sum / xs.length

/-- Population standard deviation as computed by np.std: the square root of
the mean squared deviation from the mean. -/
noncomputable def np_std (xs : List ℝ) : ℝ :=
  Real.sqrt (np_mean (xs.map (fun x => (x - np_mean xs) ^ 2)))

/-- Result of the calibration computation: the noise floor and threshold
attributes after _calibrate_noise returns, and the is_calibrated flag. -/
structure CalibrationResult where
  noise_floor : ℝ
  threshold : ℝ
  is_calibrated : Bool

/-- The computation at the end of _calibrate_noise, lines 93-107: with at
least one collected sample the noise floor becomes mean + 2 * std (line 97)
and the threshold becomes max(threshold, noise_floor * 1.5) (line 100); with
no samples both keep their prior values and only a message is printed
(line 105).  In every case is_calibrated is set to True (line 107) and no
exception is raised (the function is total). -/
noncomputable def calibrate_noise (samples : List ℝ)
    (noise_floor₀ threshold₀ : ℝ) : CalibrationResult :=
  if samples.isEmpty then
    { noise_floor := noise_floor₀, threshold := threshold₀,
      is_calibrated := true }
  else
    let nf := np_mean samples + 2 * np_std samples
    { noise_floor := nf, threshold := max threshold₀ (nf * 1.5),
      is_calibrated := true }

/-! ## Bandpass filter (audio_recorder.py lines 114-126)

The repository designs a Butterworth bandpass filter with scipy butter and
applies it with scipy filtfilt.  We embed the parts of the scipy contract that
the repository relies on: butter on a band succeeds exactly when the
normalized critical frequencies satisfy 0 < low < high < 1 and then returns
numerator/denominator vectors of length 2 * order + 1; filtfilt pads the
signal by odd extension of length 3 * max(len(a), len(b)) at each end
(rejecting shorter inputs), filters forward and backward with the linear
recurrence of lfilter, and slices the padding back off.  The numeric values of
the Butterworth coefficients arise from a bilinear transform over prewarped
(transcendental) frequencies, so the design is embedded relationally: the
theorems hold for every coefficient pair of the shape butter produces.
scipy filtfilt additionally chooses initial filter conditions that minimize
edge transients; that choice affects the output values only, never the output
length, and the embedding uses zero initial state. -/

/-- Numerator and denominator coefficient vectors of a designed filter. -/
structure FilterCoefficients where
  b : List ℚ
  a : List ℚ

/-- Normalized band edges computed by _butter_bandpass, lines 116-118:
nyq = 0.5 * fs, low = lowcut / nyq, high = highcut / nyq. -/
def normalizedBand (lowcut highcut fs : ℚ) : ℚ × ℚ :=
  (lowcut / (0.5 * fs), highcut / (0.5 * fs))

/-- Success condition of scipy butter for a band design: the normalized
critical frequencies must satisfy 0 < low < high < 1, otherwise butter raises
a ValueError. -/
def butterSucceeds (low high : ℚ) : Prop :=
  0 < low ∧ low < high ∧ high < 1

instance (low high : ℚ) : Decidable (butterSucceeds low high) := by
  unfold butterSucceeds; infer_instance

/-- Length of each coefficient vector produced by a band-type Butterworth
design of the given order: a bandpass doubles the order, giving polynomials of
degree 2 * order. -/
def butterCoeffLen (order : ℕ) : ℕ :=
  2 * order + 1

/-- Relational embedding of _butter_bandpass (lines 114-120): co is a possible
result of the design exactly when the normalized band edges are valid for
butter and both coefficient vectors have the bandpass length. -/
def IsButterBandpass (order : ℕ) (lowcut highcut fs : ℚ)
    (co : FilterCoefficients) : Prop :=
  butterSucceeds (normalizedBand lowcut highcut fs).1
      (normalizedBand lowcut highcut fs).2 ∧
  co.b.length = butterCoeffLen order ∧
  co.a.length = butterCoeffLen order

/-- Dot product of a coefficient vector with a (reversed-history) signal
window, truncated to the shorter of the two. -/
def taps (cs : List ℚ) (hist : List ℚ) : ℚ :=
  ((cs.zip hist).map (fun p => p.1 * p.2)).sum

/-- Linear IIR recurrence of scipy lfilter with zero initial state:
a0 * y n = sum over i of b i * x (n - i) minus sum over j >= 1 of
a j * y (n - j).  The histories are kept most-recent-first. -/
def lfilterAux (b atail : List ℚ) (a0 : ℚ) (xhist yhist : List ℚ) :
    List ℚ → List ℚ
  | [] => []
  | x :: xs =>
    let xh := x :: xhist
    let y := (taps b xh - taps atail yhist) / a0
    y :: lfilterAux b atail a0 xh (y :: yhist) xs

/-- Apply the IIR recurrence along a signal. -/
def lfilter (b a : List ℚ) (xs : List ℚ) : List ℚ :=
  lfilterAux b a.tail (a.headD 1) [] [] xs

/-- Odd extension of a signal by n samples at each end, as scipy filtfilt
performs with its default pad type: the signal is reflected around each end
point, so the left pad is 2 * x 0 - x (n - i) and the right pad is
2 * x last - x (len - 2 - i). -/
def oddExt (n : ℕ) (xs : List ℚ) : List ℚ :=
  match xs with
  | [] => []
  | x0 :: rest =>
    let xl := (x0 :: rest).getLastD 0
    let left := (List.range n).map (fun i => 2 * x0 - xs.getD (n - i) 0)
    let right :=
      (List.range n).map (fun i => 2 * xl - xs.getD (xs.length - 2 - i) 0)
    left ++ xs ++ right

/-- Zero-phase filtering as performed by scipy filtfilt with its defaults:
pad by odd extension of length 3 * max(len(a), len(b)), filter forward,
filter the reversal backward, undo the reversal and strip the padding.
Inputs no longer than the pad length are rejected (scipy raises a
ValueError), which the embedding returns as none. -/
def filtfilt (b a : List ℚ) (xs : List ℚ) : Option (List ℚ) :=
  let padlen := 3 * max a.length b.length
  if xs.length ≤ padlen then
    none
  else
    let ext := oddExt padlen xs
    let y1 := lfilter b a ext
    let y2 := (lfilter b a y1.reverse).reverse
    some ((y2.drop padlen).take xs.length)

/-! ## Recorder lifecycle (audio_recorder.py lines 44-73, 104-112, 128-134) -/

/-- Phases of the recorder: created (constructor ran, device not opened),
calibrating (start_listening opened the stream and spawned _calibrate_noise),
listening (the steady-state loop of _listen_and_record is reading blocks into
segments and running speech detection), stopped (stop ran). -/
inductive Phase
  | created
  | calibrating
  | listening
  | stopped
  deriving DecidableEq

/-- Thread-visible lifecycle state: the current phase and the is_calibrated
flag (line 35, set on line 107). -/
structure LifecycleState where
  phase : Phase
  is_calibrated : Bool
  deriving DecidableEq

/-- State reached by the constructor, lines 16-42: nothing opened, flag
down. -/
def initialLifecycle : LifecycleState :=
  ⟨Phase.created, false⟩

/-- Lifecycle transitions of the recorder.  start moves to calibrating
(lines 44-66); finish_calibration sets is_calibrated on line 107 before the
listening thread is spawned on lines 110-112; begin_listening is the listening
thread entering its steady-state loop, which it does only after the wait loop
on lines 133-134 has observed is_calibrated; stop is available from every
phase (lines 210-226) and leaves the flag alone. -/
inductive LifecycleStep : LifecycleState → LifecycleState → Prop
  | start :
      LifecycleStep ⟨Phase.created, false⟩ ⟨Phase.calibrating, false⟩
  | finish_calibration (c : Bool) :
      LifecycleStep ⟨Phase.calibrating, c⟩ ⟨Phase.calibrating, true⟩
  | begin_listening :
      LifecycleStep ⟨Phase.calibrating, true⟩ ⟨Phase.listening, true⟩
  | stop (p : Phase) (c : Bool) :
      LifecycleStep ⟨p, c⟩ ⟨Phase.stopped, c⟩

/-- States reachable from the freshly constructed recorder. -/
inductive Reachable : LifecycleState → Prop
  | init : Reachable initialLifecycle
  | step {s t : LifecycleState} :
      Reachable s → LifecycleStep s t → Reachable t

/-! ## stop (audio_recorder.py lines 210-226) -/

/-- State relevant to stop: the running flag, whether the stream and PyAudio
attributes currently hold (truthy) objects, and how many times the underlying
close and terminate operations have been invoked. -/
structure StopState where
  running : Bool
  stream_set : Bool
  p_set : Bool
  stream_close_calls : ℕ
  p_terminate_calls : ℕ

/-- Effect of one call to stop, lines 210-226: running is cleared (line 212);
if the stream attribute is set, stop_stream and close are invoked on it inside
a try/except (lines 215-220); if the PyAudio attribute is set, terminate is
invoked inside a try/except (lines 222-226).  Neither attribute is ever
cleared, so repeated calls re-invoke close and terminate.  Every exception
from those invocations is caught and printed, so no exception reaches the
caller; the Boolean in the result records whether one escaped (always
false). -/
def stop (s : StopState) : StopState × Bool :=
  let s₁ := { s with running := false }
  let s₂ :=
    if s₁.stream_set then
      { s₁ with stream_close_calls := s₁.stream_close_calls + 1 }
    else
      s₁
  let s₃ :=
    if s₂.p_set then
      { s₂ with p_terminate_calls := s₂.p_terminate_calls + 1 }
    else
      s₂
  (s₃, false)

/-! ## start_listening (audio_recorder.py lines 44-73) -/

/-- How the device-acquisition steps inside the try block behave: everything
succeeds; the PyAudio constructor itself fails (then self.p is still None);
or a later step fails (querying the default device, opening the stream, or
starting it), with self.p already set. -/
inductive StartBehavior
  | ok
  | pyaudio_init_fails
  | device_open_fails

/-- Caller-visible outcome of start_listening: whether an exception escaped
to the caller, whether the error path printed a message, how many times the
device open was attempted, whether a stream ended up open, whether PyAudio
was terminated by the error path, and whether the calibration thread was
started. -/
structure StartOutcome where
  exception_to_caller : Bool
  error_logged : Bool
  open_attempts : ℕ
  stream_opened : Bool
  pyaudio_terminated : Bool
  calibration_started : Bool

/-- Effect of start_listening, lines 44-73: the whole body is one try/except
that catches every exception (line 70), prints it (line 71), terminates
PyAudio when self.p was set (lines 72-73), and returns normally — nothing is
re-raised and nothing is retried.  On success the stream is opened and
started once and the calibration thread is spawned (lines 53-66). -/
def start_listening : StartBehavior → StartOutcome
  | StartBehavior.ok =>
      { exception_to_caller := false, error_logged := false,
        open_attempts := 1, stream_opened := true,
        pyaudio_terminated := false, calibration_started := true }
  | StartBehavior.pyaudio_init_fails =>
      { exception_to_caller := false, error_logged := true,
        open_attempts := 0, stream_opened := false,
        pyaudio_terminated := false, calibration_started := false }
  | StartBehavior.device_open_fails =>
      { exception_to_caller := false, error_logged := true,
        open_attempts := 1, stream_opened := false,
        pyaudio_terminated := true, calibration_started := false }

/-! ## Helper lemmas -/

lemma detectorRun_append (t : ℚ) (sft : ℕ) (xs ys : List ℚ) (c : ℕ) :
    detectorRun t sft c (xs ++ ys)
      = ((detectorRun t sft (detectorRun t sft c xs).1 ys).1,
         (detectorRun t sft c xs).2
           ++ (detectorRun t sft (detectorRun t sft c xs).1 ys).2) := by
  induction xs generalizing c with
  | nil => simp [detectorRun]
  | cons v vs ih => simp [detectorRun, ih]

lemma detectorRun_replicate_silent (t hi : ℚ) (sft : ℕ) (hhi : t < hi) :
    ∀ (k c : ℕ), c + k < sft ∨ sft ≤ c →
      detectorRun t sft c (List.replicate k hi)
        = (c + k, List.replicate k false) := by
  intro k
  induction k with
  | zero =>
    intro c _
    simp [detectorRun]
  | succ n ih =>
    intro c hc
    have hflag : ¬ (c + 1 = sft) := by omega
    have hstep : detectorStep t sft c hi = (c + 1, false) := by
      simp [detectorStep, if_pos hhi, hflag]
    have hrest := ih (c + 1) (by omega)
    rw [List.replicate_succ]
    simp only [detectorRun, hstep, hrest]
    refine Prod.ext ?_ ?_
    · simp; omega
    · simp [List.replicate_succ]

lemma lfilterAux_length (b atail : List ℚ) (a0 : ℚ) :
    ∀ (xs xhist yhist : List ℚ),
      (lfilterAux b atail a0 xhist yhist xs).length = xs.length := by
  intro xs
  induction xs with
  | nil =>
    intro xhist yhist
    rfl
  | cons x xs ih =>
    intro xhist yhist
    simp [lfilterAux, ih]

lemma lfilter_length (b a xs : List ℚ) : (lfilter b a xs).length = xs.length :=
  lfilterAux_length b a.tail (a.headD 1) xs [] []

lemma oddExt_length (n : ℕ) (xs : List ℚ) (h : xs ≠ []) :
    (oddExt n xs).length = xs.length + 2 * n := by
  cases xs with
  | nil => exact absurd rfl h
  | cons x0 rest =>
    simp [oddExt]
    omega

lemma np_mean_replicate (n : ℕ) (a : ℝ) (hn : n ≠ 0) :
    np_mean (List.replicate n a) = a := by
  have hn' : (n : ℝ) ≠ 0 := Nat.cast_ne_zero.mpr hn
  simp [np_mean, List.sum_replicate, nsmul_eq_mul]
  field_simp

lemma np_std_replicate (n : ℕ) (a : ℝ) (hn : n ≠ 0) :
    np_std (List.replicate n a) = 0 := by
  have h1 : np_mean (List.replicate n a) = a := np_mean_replicate n a hn
  have h2 : (List.replicate n a).map
        (fun x => (x - np_mean (List.replicate n a)) ^ 2)
      = List.replicate n 0 := by
    rw [h1]
    simp [List.map_replicate]
  rw [np_std, h2]
  simp [np_mean]

/-! ## Claim theorems -/

/-- C1: for every completed recording interval, if zero blocks were
accumulated nothing is flushed or enqueued; if at least one block was
accumulated exactly one segment is enqueued, and its container holds the
appended blocks in order, with sample count equal to the sum of the block
lengths. -/
theorem C1_interval_flush (recording_interval current_time : ℚ)
    (s : LoopState)
    (hb : recording_interval ≤ current_time - s.last_recording_time) :
    (s.temp_frames = [] →
      (interval_check recording_interval s current_time).audio_queue
        = s.audio_queue) ∧
    (s.temp_frames ≠ [] →
      (interval_check recording_interval s current_time).audio_queue
          = s.audio_queue ++ [save_recording s.temp_frames] ∧
        (save_recording s.temp_frames).samples = s.temp_frames.flatten ∧
        (save_recording s.temp_frames).samples.length
          = (s.temp_frames.map List.length).sum) := by
  constructor
  · intro hnil
    simp [interval_check, if_pos hb, hnil]
  · intro hne
    have hlen : 0 < s.temp_frames.length := List.length_pos.mpr hne
    refine ⟨?_, rfl, ?_⟩
    · simp [interval_check, if_pos hb, if_pos hlen]
    · simp [save_recording]

/-- Witness for C1 at a concrete state: two blocks buffered, boundary
reached, one segment enqueued. -/
theorem C1_interval_flush_witness :
    (interval_check 10 ⟨[[1, 2], [3]], 0, 6000, 0, 0, []⟩ 10).audio_queue
      = [save_recording [[1, 2], [3]]] := by
  have h := C1_interval_flush 10 10 ⟨[[1, 2], [3]], 0, 6000, 0, 0, []⟩
    (by norm_num)
  simpa using (h.2 (by simp)).1

/-- C2: the detector reports speech exactly on the block where the
consecutive-above-threshold counter reaches speech_frames_threshold; feeding
speech_frames_threshold - 1 above-threshold blocks followed by one
below-threshold block never reports speech; and any below-threshold block
resets the counter to zero. -/
theorem C2_speech_detector (t : ℚ) (sft : ℕ) (hi lo : ℚ)
    (hsft : 1 ≤ sft) (hhi : t < hi) (hlo : ¬ t < lo) :
    (∀ (c : ℕ) (blk : List ℚ),
      (observeBlock t sft c blk).2 = true ↔ (observeBlock t sft c blk).1 = sft) ∧
    (∀ flag ∈ (detectorRun t sft 0
        (List.replicate (sft - 1) hi ++ [lo])).2, flag = false) ∧
    (∀ c : ℕ, (detectorStep t sft c lo).1 = 0) := by
  refine ⟨?_, ?_, ?_⟩
  · intro c blk
    by_cases hv : t < blockVolume blk
    · simp [observeBlock, detectorStep, if_pos hv]
    · simp [observeBlock, detectorStep, if_neg hv]
      omega
  · have h1 := detectorRun_replicate_silent t hi sft hhi (sft - 1) 0
      (Or.inl (by omega))
    have hstep : detectorStep t sft (sft - 1) lo = (0, false) := by
      simp [detectorStep, if_neg hlo]
    have hflags : (detectorRun t sft 0
        (List.replicate (sft - 1) hi ++ [lo])).2
        = List.replicate (sft - 1) false ++ [false] := by
      rw [detectorRun_append, h1]
      simp [detectorRun, hstep]
    intro flag hflag
    rw [hflags] at hflag
    rcases List.mem_append.mp hflag with h | h
    · exact List.eq_of_mem_replicate h
    · simpa using h
  · intro c
    simp [detectorStep, if_neg hlo]

/-- Witness for C2 at a concrete input: threshold 6000, debounce 3, a
below-threshold block resets the counter from 5 to 0. -/
theorem C2_speech_detector_witness : (detectorStep 6000 3 5 5).1 = 0 := by
  exact (C2_speech_detector 6000 3 7000 5 (by norm_num) (by norm_num)
    (by norm_num)).2.2 5

/-- C3: for every non-empty sample sequence, calibration sets the noise floor
to mean + 2 * std and the threshold to max(initial threshold,
noise_floor * 1.5); for N identical samples of amplitude A the noise floor is
A and the threshold is max(initial threshold, A * 1.5). -/
theorem C3_noise_calibration (samples : List ℝ) (noise_floor₀ threshold₀ : ℝ)
    (h : samples ≠ []) :
    (calibrate_noise samples noise_floor₀ threshold₀).noise_floor
      = np_mean samples + 2 * np_std samples ∧
    (calibrate_noise samples noise_floor₀ threshold₀).threshold
      = max threshold₀ ((np_mean samples + 2 * np_std samples) * 1.5) ∧
    (∀ (N : ℕ) (A : ℝ), N ≠ 0 → samples = List.replicate N A →
      (calibrate_noise samples noise_floor₀ threshold₀).noise_floor = A ∧
      (calibrate_noise samples noise_floor₀ threshold₀).threshold
        = max threshold₀ (A * 1.5)) := by
  have hemp : samples.isEmpty = false := by
    cases samples with
    | nil => exact absurd rfl h
    | cons x xs => rfl
  refine ⟨?_, ?_, ?_⟩
  · simp [calibrate_noise, hemp]
  · simp [calibrate_noise, hemp]
  · intro N A hN hrep
    subst hrep
    have hm := np_mean_replicate N A hN
    have hs := np_std_replicate N A hN
    constructor
    · simp [calibrate_noise, hemp, hm, hs]
    · simp [calibrate_noise, hemp, hm, hs]

/-- Witness for C3: three identical samples of amplitude 2 give noise floor
2. -/
theorem C3_noise_calibration_witness :
    (calibrate_noise (List.replicate 3 (2 : ℝ)) 0 6000).noise_floor = 2 := by
  exact ((C3_noise_calibration (List.replicate 3 (2 : ℝ)) 0 6000
    (by simp)).2.2 3 2 (by norm_num) rfl).1

/-- C4 counterexample: starting from a fully started recorder, two calls to
stop invoke the underlying stream close twice, not once, because the stream
attribute is never cleared — refuting the part of the claim that says the
device is closed exactly once across both calls. -/
theorem C4_stop_counterexample :
    ((stop (stop ⟨true, true, true, 0, 0⟩).1).1.stream_close_calls = 2) ∧
    ¬ ((stop (stop ⟨true, true, true, 0, 0⟩).1).1.stream_close_calls = 1) := by
  constructor
  · rfl
  · decide

/-- C4 (amended): stop never raises — every close and terminate error is
caught — and a second call also raises nothing, but stop is not idempotent
with respect to the device: the stream and PyAudio attributes are not
cleared, so each call re-invokes close and terminate, and across two calls the
stream close is invoked twice (when a stream was open), not once. -/
theorem C4_stop_amended (s : StopState) :
    (stop s).2 = false ∧
    (stop s).1.running = false ∧
    (stop (stop s).1).2 = false ∧
    (stop (stop s).1).1.stream_close_calls
      = s.stream_close_calls + (if s.stream_set then 2 else 0) ∧
    (stop (stop s).1).1.p_terminate_calls
      = s.p_terminate_calls + (if s.p_set then 2 else 0) := by
  obtain ⟨r, st, p, sc, pt⟩ := s
  cases st <;> cases p <;> simp [stop]

/-- C5 counterexample: when opening the audio device fails during
start_listening, no exception reaches the caller — the except block catches,
prints and returns — refuting the part of the claim that says the error is
propagated to the caller of start. -/
theorem C5_start_counterexample :
    ¬ ((start_listening StartBehavior.device_open_fails).exception_to_caller
        = true) := by
  decide

/-- C5 (amended): device-open failure is fatal for the component — no stream
is opened, the calibration thread is never started, PyAudio is terminated and
the error is logged, and there is no retry (at most one open attempt) — but
the exception is caught inside start_listening and is not propagated to the
caller (the component only fails silently from the point of view of the
caller). -/
theorem C5_start_amended :
    (start_listening StartBehavior.device_open_fails).exception_to_caller
      = false ∧
    (start_listening StartBehavior.device_open_fails).error_logged = true ∧
    (start_listening StartBehavior.device_open_fails).pyaudio_terminated
      = true ∧
    (start_listening StartBehavior.device_open_fails).stream_opened = false ∧
    (start_listening StartBehavior.device_open_fails).calibration_started
      = false ∧
    (start_listening StartBehavior.device_open_fails).open_attempts ≤ 1 ∧
    (start_listening StartBehavior.pyaudio_init_fails).exception_to_caller
      = false ∧
    (start_listening StartBehavior.pyaudio_init_fails).calibration_started
      = false ∧
    (start_listening StartBehavior.pyaudio_init_fails).open_attempts ≤ 1 := by
  decide

/-- C6: calibration over zero collected samples does not raise — the noise
floor and threshold keep their prior (default) values, and the recorder is
still marked calibrated so capture proceeds. -/
theorem C6_empty_calibration (noise_floor₀ threshold₀ : ℝ) :
    calibrate_noise [] noise_floor₀ threshold₀
      = { noise_floor := noise_floor₀, threshold := threshold₀,
          is_calibrated := true } := by
  rfl

/-- C7: after a flush the in-memory block buffer is empty and the interval
timer is reset to the flush time — which differs from the originally
scheduled boundary whenever the loop overshoots — while the noise floor,
threshold and speech-detector counter are untouched. -/
theorem C7_flush_frame (recording_interval current_time : ℚ) (s : LoopState)
    (hb : recording_interval ≤ current_time - s.last_recording_time)
    (_hne : s.temp_frames ≠ []) :
    (interval_check recording_interval s current_time).temp_frames = [] ∧
    (interval_check recording_interval s current_time).last_recording_time
      = current_time ∧
    (interval_check recording_interval s current_time).threshold
      = s.threshold ∧
    (interval_check recording_interval s current_time).noise_floor
      = s.noise_floor ∧
    (interval_check recording_interval s current_time).consecutive_speech_frames
      = s.consecutive_speech_frames ∧
    (current_time ≠ s.last_recording_time + recording_interval →
      (interval_check recording_interval s current_time).last_recording_time
        ≠ s.last_recording_time + recording_interval) := by
  refine ⟨?_, ?_, ?_, ?_, ?_, ?_⟩ <;>
    simp [interval_check, if_pos hb]

/-- Witness for C7: a flush at time 11 with scheduled boundary 10 resets the
timer to 11. -/
theorem C7_flush_frame_witness :
    (interval_check 10 ⟨[[1]], 0, 6000, 0, 2, []⟩ 11).last_recording_time
      = 11 := by
  exact (C7_flush_frame 10 11 ⟨[[1]], 0, 6000, 0, 2, []⟩ (by norm_num)
    (by simp)).2.1

/-- C8 counterexample: the claim quantifies over every input block, but the
filtering routine rejects blocks no longer than its pad length — for an
order-5 bandpass (coefficient vectors of length 11, pad length 33) a
33-sample block is rejected instead of yielding a same-length output. -/
theorem C8_filter_counterexample :
    filtfilt (List.replicate 11 (1 : ℚ)) (List.replicate 11 1)
      (List.replicate 33 0) = none := by
  rfl

/-- C8 (amended): for every parameter tuple with
0 < low_hz < high_hz < sample_rate / 2 the bandpass design succeeds, and for
every input block longer than the pad length 3 * (2 * order + 1) — which
holds for the default 1024-sample blocks of the recorder — applying the
filter returns a sequence of exactly the same length as its input; the filter
carries no state across calls, being a pure function of the coefficients and
the samples. -/
theorem C8_filter_length (order : ℕ) (lowcut highcut fs : ℚ)
    (co : FilterCoefficients) (xs : List ℚ)
    (hlow : 0 < lowcut) (hband : lowcut < highcut) (hnyq : highcut < fs / 2)
    (hb : co.b.length = butterCoeffLen order)
    (ha : co.a.length = butterCoeffLen order)
    (hxs : 3 * butterCoeffLen order < xs.length) :
    IsButterBandpass order lowcut highcut fs co ∧
    ∃ ys, filtfilt co.b co.a xs = some ys ∧ ys.length = xs.length := by
  have hfs : 0 < 0.5 * fs := by norm_num; linarith
  constructor
  · refine ⟨⟨?_, ?_, ?_⟩, hb, ha⟩
    · exact div_pos hlow hfs
    · exact (div_lt_div_iff_of_pos_right hfs).mpr hband
    · refine (div_lt_one hfs).mpr ?_
      linarith
  · have hmax : max co.a.length co.b.length = butterCoeffLen order := by
      rw [ha, hb, max_self]
    have hpos : 0 < xs.length := by omega
    have hne : xs ≠ [] := List.length_pos.mp hpos
    have hnot : ¬ (xs.length ≤ 3 * max co.a.length co.b.length) := by
      rw [hmax]
      omega
    simp only [filtfilt]
    rw [if_neg hnot]
    refine ⟨_, rfl, ?_⟩
    have hext : (oddExt (3 * max co.a.length co.b.length) xs).length
        = xs.length + 2 * (3 * max co.a.length co.b.length) :=
      oddExt_length _ xs hne
    simp [lfilter_length, hext]
    omega

/-- Witness for C8 at the default parameters: order 5, band 300-3000 Hz at
44100 Hz, a 34-sample block filters to a 34-sample output. -/
theorem C8_filter_length_witness :
    ∃ ys, filtfilt (List.replicate 11 (1 : ℚ)) (List.replicate 11 1)
        (List.replicate 34 0) = some ys ∧ ys.length = 34 := by
  have h := C8_filter_length 5 300 3000 44100
    ⟨List.replicate 11 1, List.replicate 11 1⟩ (List.replicate 34 0)
    (by norm_num) (by norm_num) (by norm_num)
    (by norm_num [butterCoeffLen]) (by norm_num [butterCoeffLen])
    (by norm_num [butterCoeffLen])
  simpa using h.2

/-- C9: in every reachable lifecycle state, being in the listening phase
implies the calibration flag is set — steady-state capture never begins
before calibration has completed. -/
theorem C9_listening_requires_calibration (s : LifecycleState)
    (hr : Reachable s) (hl : s.phase = Phase.listening) :
    s.is_calibrated = true := by
  induction hr with
  | init => exact Phase.noConfusion hl
  | step hprev hstep ih =>
    cases hstep with
    | start => exact Phase.noConfusion hl
    | finish_calibration c => rfl
    | begin_listening => rfl
    | stop p c => exact Phase.noConfusion hl

/-- Witness for C9: the listening state reached by start, calibration
completion and loop entry has the calibration flag set. -/
theorem C9_listening_requires_calibration_witness :
    (⟨Phase.listening, true⟩ : LifecycleState).is_calibrated = true := by
  have hr : Reachable ⟨Phase.listening, true⟩ :=
    Reachable.step
      (Reachable.step (Reachable.step Reachable.init LifecycleStep.start)
        (LifecycleStep.finish_calibration false))
      LifecycleStep.begin_listening
  exact C9_listening_requires_calibration _ hr rfl

/-- C10: within a contiguous run of k >= speech_frames_threshold consecutive
above-threshold blocks starting from a reset counter, the speech signal fires
exactly once, on the block where the counter equals the threshold, and the
counter keeps incrementing past it without re-triggering. -/
theorem C10_single_fire (t hi : ℚ) (sft k : ℕ) (hhi : t < hi)
    (hsft : 1 ≤ sft) (hk : sft ≤ k) :
    (detectorRun t sft 0 (List.replicate k hi)).2
      = List.replicate (sft - 1) false
          ++ true :: List.replicate (k - sft) false ∧
    (detectorRun t sft 0 (List.replicate k hi)).2.count true = 1 := by
  have hsplit : List.replicate k hi
      = List.replicate (sft - 1) hi ++ hi :: List.replicate (k - sft) hi := by
    rw [← List.replicate_succ, ← List.replicate_add]
    congr 1
    omega
  have h1 : detectorRun t sft 0 (List.replicate (sft - 1) hi)
      = (sft - 1, List.replicate (sft - 1) false) := by
    have := detectorRun_replicate_silent t hi sft hhi (sft - 1) 0
      (Or.inl (by omega))
    simpa using this
  have hstep : detectorStep t sft (sft - 1) hi = (sft, true) := by
    have : sft - 1 + 1 = sft := by omega
    simp [detectorStep, if_pos hhi, this]
  have h2 := detectorRun_replicate_silent t hi sft hhi (k - sft) sft
    (Or.inr le_rfl)
  have hflags : (detectorRun t sft 0 (List.replicate k hi)).2
      = List.replicate (sft - 1) false
          ++ true :: List.replicate (k - sft) false := by
    rw [hsplit, detectorRun_append, h1]
    simp only [detectorRun, hstep, h2]
  refine ⟨hflags, ?_⟩
  rw [hflags]
  simp [List.count_append, List.count_cons, List.count_replicate]

/-- Witness for C10: five consecutive above-threshold blocks with debounce 3
fire exactly once. -/
theorem C10_single_fire_witness :
    (detectorRun 6000 3 0 (List.replicate 5 7000)).2.count true = 1 := by
  exact (C10_single_fire 6000 7000 3 5 (by norm_num) (by norm_num)
    (by norm_num)).2

end VisionVoice
